import Mathlib

set_option maxRecDepth 100000

/-!
Shallow embedding of the `collections` crate of `baas-rs`:
`src/collections/src/field.rs` and `src/collections/src/schema.rs`.
Rust `String` is modelled as Lean `String`; `Vec<T>` as `List T`;
`Option<T>` as `Option T`.  `str::to_lowercase` / `str::trim` are modelled
by `String.toLower` / `String.trim` (the reserved names compared against are
ASCII, where the two agree).  The unsigned subtraction `self.fields.len() - 1`
inside `Schema::to_sql` is modelled twice: once with Lean's truncating `Nat`
subtraction for the value-level function, and once with a checked subtraction
(`Option`) to show the Rust debug-mode underflow panic is unreachable.
-/

namespace Baas

/-- The eleven field types of `FieldType` in `field.rs`. -/
inductive FieldType where
  | Integer
  | Double
  | Serial
  | Char
  | Text
  | Timestamp
  | Date
  | Time
  | Boolean
  | Json
  | UUID
  deriving DecidableEq, Repr

/-- `impl Display for FieldType` (`field.rs` lines 60-76). -/
def FieldType.to_string : FieldType → String
  | .Integer => "BIGINT"
  | .Double => "DOUBLE PRECISION"
  | .Serial => "BIGSERIAL"
  | .Char => "VARCHAR(255)"
  | .Text => "TEXT"
  | .Timestamp => "TIMESTAMP WITHOUT TIME ZONE"
  | .Date => "DATE"
  | .Time => "TIME"
  | .Boolean => "BOOLEAN"
  | .Json => "JSON"
  | .UUID => "UUID"

/-- The three system fields of `SystemField` in `field.rs`. -/
inductive SystemField where
  | Id
  | InsertedAt
  | UpdatedAt
  deriving DecidableEq, Repr

/-- `impl Display for SystemField` (`field.rs` lines 102-110). -/
def SystemField.to_string : SystemField → String
  | .Id => "id"
  | .InsertedAt => "inserted_at"
  | .UpdatedAt => "updated_at"

/-- `SystemField::iterator` (`field.rs` lines 131-138): iteration over the
static three-element array, modelled as the list it yields. -/
def SystemField.iterator : List SystemField :=
  [SystemField.Id, SystemField.InsertedAt, SystemField.UpdatedAt]

/-- `SystemField::names` (`field.rs` lines 158-166): pushes `to_string` of
each iterator element onto an initially empty vector. -/
def SystemField.names : List String :=
  SystemField.iterator.foldl (fun names field => names ++ [field.to_string]) []

/-- `SystemField::to_sql_options` (`field.rs` lines 168-174). -/
def SystemField.to_sql_options : SystemField → String
  | .Id => "UUID PRIMARY KEY DEFAULT gen_random_uuid()"
  | .InsertedAt => "TIMESTAMP without time zone NOT NULL"
  | .UpdatedAt => "TIMESTAMP without time zone NOT NULL"

/-- `SystemField::to_sql` (`field.rs` lines 197-199): `format!("{} {}", ...)`. -/
def SystemField.to_sql (f : SystemField) : String :=
  f.to_string ++ " " ++ f.to_sql_options

/-- `FieldOptions` (`field.rs` lines 202-207). -/
structure FieldOptions where
  unique : Bool
  not_null : Bool
  default : Option String
  deriving DecidableEq, Repr

/-- `FieldOptions::new` (`field.rs` lines 224-230). -/
def FieldOptions.new (unique not_null : Bool) (default : Option String) :
    FieldOptions :=
  { unique := unique, not_null := not_null, default := default }

/-- `impl Default for FieldOptions` (`field.rs` lines 251-253).  Named
`default_options` because the struct field accessor already takes the name
`FieldOptions.default`. -/
def FieldOptions.default_options : FieldOptions :=
  FieldOptions.new false false none

/-- `Field` (`field.rs` lines 256-260). -/
structure Field where
  name : String
  type_ : FieldType
  options : Option FieldOptions
  deriving DecidableEq, Repr

/-- `Field::field_options_or_default` (`field.rs` lines 304-309). -/
def Field.field_options_or_default (options : Option FieldOptions) :
    Option FieldOptions :=
  match options with
  | some options => some options
  | none => some FieldOptions.default_options

/-- `Field::new` (`field.rs` lines 294-302). -/
def Field.new (name : String) (type_ : FieldType)
    (options : Option FieldOptions) : Field :=
  { name := name, type_ := type_,
    options := Field.field_options_or_default options }

/-- `Field::is_numeric_field` (`field.rs` lines 322-326). -/
def Field.is_numeric_field (f : Field) : Bool :=
  f.type_ == FieldType.Integer || f.type_ == FieldType.Serial
    || f.type_ == FieldType.Double

/-- `Field::is_boolean_field` (`field.rs` lines 328-330). -/
def Field.is_boolean_field (f : Field) : Bool :=
  f.type_ == FieldType.Boolean

/-- `Field::has_options` (`field.rs` lines 332-334). -/
def Field.has_options (f : Field) : Bool :=
  f.options.isSome

/-- `Field::not_null_option` (`field.rs` lines 336-341). -/
def Field.not_null_option (f : Field) : Bool :=
  match f.options with
  | some options => options.not_null
  | none => false

/-- `Field::has_default` (`field.rs` lines 343-348). -/
def Field.has_default (f : Field) : Bool :=
  match f.options with
  | some options => options.default.isSome
  | none => false

/-- `Field::default_value` (`field.rs` lines 350-360). -/
def Field.default_value (f : Field) : String :=
  if f.has_default then
    match f.options with
    | some options =>
      match options.default with
      | some default => default
      | none => ""
    | none => ""
  else ""

/-- `Field::not_null_sql` (`field.rs` lines 362-368). -/
def Field.not_null_sql (f : Field) : String :=
  if f.not_null_option then " NOT NULL" else ""

/-- `Field::default_sql` (`field.rs` lines 370-380); the apostrophes of the
single-quoted branch are written `\x27`. -/
def Field.default_sql (f : Field) : String :=
  if f.has_default then
    if f.is_numeric_field || f.is_boolean_field then
      " DEFAULT " ++ f.default_value
    else
      " DEFAULT \x27" ++ f.default_value ++ "\x27"
  else ""

/-- `Field::to_sql` (`field.rs` lines 311-320). -/
def Field.to_sql (f : Field) : String :=
  let sql := f.name ++ " " ++ f.type_.to_string
  if f.has_options then sql ++ f.not_null_sql ++ f.default_sql else sql

/-- `Schema` (`schema.rs` lines 3-6). -/
structure Schema where
  table_name : String
  fields : List Field
  deriving DecidableEq, Repr

/-- `Schema::new` (`schema.rs` lines 20-25). -/
def Schema.new : Schema :=
  { table_name := "", fields := [] }

/-- Lowercasing of one character: ASCII uppercase letters (codes 65-90) map
to the corresponding lowercase letter, everything else is unchanged.  Models
Rust `str::to_lowercase` per character (which agrees on the ASCII range; the
reserved names it is compared against are ASCII). -/
def lowerChar (c : Char) : Char :=
  if 65 ≤ c.toNat ∧ c.toNat ≤ 90 then Char.ofNat (c.toNat + 32) else c

/-- `str::to_lowercase`, modelled character-wise by `lowerChar`. -/
def to_lowercase (s : String) : String :=
  String.mk (s.data.map lowerChar)

/-- Whitespace test for `str::trim`: the characters with the Unicode
White_Space property, as tested by Rust `char::is_whitespace` — tab, line
feed, vertical tab, form feed, carriage return, space, next line, no-break
space, ogham space mark, the en-quad..hair-space range, line separator,
paragraph separator, narrow no-break space, medium mathematical space, and
ideographic space. -/
def isWhitespaceChar (c : Char) : Bool :=
  c.toNat == 9 || c.toNat == 10 || c.toNat == 11 || c.toNat == 12
    || c.toNat == 13 || c.toNat == 32 || c.toNat == 133 || c.toNat == 160
    || c.toNat == 5760 || (8192 ≤ c.toNat && c.toNat ≤ 8202)
    || c.toNat == 8232 || c.toNat == 8233 || c.toNat == 8239
    || c.toNat == 8287 || c.toNat == 12288

/-- Removal of leading and trailing whitespace from a character list. -/
def trimChars (l : List Char) : List Char :=
  ((l.dropWhile isWhitespaceChar).reverse.dropWhile isWhitespaceChar).reverse

/-- `str::trim`, modelled on the underlying character list. -/
def trim (s : String) : String :=
  String.mk (trimChars s.data)

/-- `Schema::add_field` (`schema.rs` lines 55-64): a linear scan over
`SystemField::names()` returning early (a no-op) on a lowercased-and-trimmed
match, otherwise pushing `Field::new name type_ options`. -/
def Schema.add_field (s : Schema) (name : String) (type_ : FieldType)
    (options : Option FieldOptions) : Schema :=
  if SystemField.names.any
      (fun field => trim (to_lowercase field) == trim (to_lowercase name)) then
    s
  else
    { s with fields := s.fields ++ [Field.new name type_ options] }

/-- `Schema::system_fields_sql` (`schema.rs` lines 132-141). -/
def Schema.system_fields_sql : String :=
  SystemField.iterator.foldl (fun sql field => sql ++ field.to_sql ++ ", ") ""

/-- `Schema::unique_constraints_sql` (`schema.rs` lines 143-158). -/
def Schema.unique_constraints_sql (s : Schema) (field : Field)
    (options : Option FieldOptions) : Option String :=
  match options with
  | some options =>
    if options.unique then
      some ("CONSTRAINT " ++ s.table_name ++ "_" ++ field.name
        ++ "_key UNIQUE (" ++ field.name ++ ")")
    else none
  | none => none

/-- One iteration of the `for (index, field)` loop of `Schema::to_sql`
(`schema.rs` lines 109-120), threading the accumulated SQL string and the
collected constraint clauses.  `n` is `self.fields.len()`; the separator
guard is `index < n - 1` with Rust release-mode (wrapping-free, since `Nat`)
subtraction. `n - 1` here is Lean truncating subtraction; see
`Schema.to_sql_checked` for the checked variant. -/
def Schema.to_sql_step (s : Schema) (n : Nat) (acc : String × List String)
    (p : Nat × Field) : String × List String :=
  let sql := acc.1 ++ p.2.to_sql
  let constraints :=
    match s.unique_constraints_sql p.2 p.2.options with
    | some constraints_sql => acc.2 ++ [constraints_sql]
    | none => acc.2
  (if p.1 < n - 1 then sql ++ ", " else sql, constraints)

/-- `Schema::to_sql` (`schema.rs` lines 103-130). -/
def Schema.to_sql (s : Schema) : String :=
  let sql := "CREATE TABLE " ++ s.table_name ++ " (" ++ Schema.system_fields_sql
  let acc := s.fields.enum.foldl (Schema.to_sql_step s s.fields.length)
    (sql, [])
  let sql :=
    if acc.2.isEmpty then acc.1
    else acc.1 ++ ", " ++ String.intercalate ", " acc.2
  sql ++ ");"

/-- Checked `Nat` subtraction, modelling Rust debug-mode `usize` subtraction:
`none` on underflow. -/
def checkedSub (a b : Nat) : Option Nat :=
  if b ≤ a then some (a - b) else none

/-- The loop iteration of `Schema::to_sql` with the `self.fields.len() - 1`
of the separator guard evaluated by `checkedSub`, as Rust debug builds do:
the whole computation aborts (`none`, a panic) if the subtraction underflows. -/
def Schema.to_sql_step_checked (s : Schema) (n : Nat)
    (acc : Option (String × List String)) (p : Nat × Field) :
    Option (String × List String) :=
  match acc with
  | none => none
  | some acc =>
    let sql := acc.1 ++ p.2.to_sql
    let constraints :=
      match s.unique_constraints_sql p.2 p.2.options with
      | some constraints_sql => acc.2 ++ [constraints_sql]
      | none => acc.2
    match checkedSub n 1 with
    | none => none
    | some m => some (if p.1 < m then sql ++ ", " else sql, constraints)

/-- `Schema::to_sql` with the separator guard's subtraction checked:
returns `none` exactly when a Rust debug build would panic on underflow. -/
def Schema.to_sql_checked (s : Schema) : Option String :=
  let sql := "CREATE TABLE " ++ s.table_name ++ " (" ++ Schema.system_fields_sql
  match s.fields.enum.foldl (Schema.to_sql_step_checked s s.fields.length)
      (some (sql, [])) with
  | none => none
  | some acc =>
    let sql :=
      if acc.2.isEmpty then acc.1
      else acc.1 ++ ", " ++ String.intercalate ", " acc.2
    some (sql ++ ");")

/-- `SchemaBuilder` (`schema.rs` lines 183-185). -/
structure SchemaBuilder where
  schema : Schema
  deriving DecidableEq, Repr

/-- `SchemaBuilder::new` (`schema.rs` lines 199-203). -/
def SchemaBuilder.new : SchemaBuilder :=
  { schema := Schema.new }

/-- `SchemaBuilder::with_table_name` (`schema.rs` lines 219-222). -/
def SchemaBuilder.with_table_name (b : SchemaBuilder) (table_name : String) :
    SchemaBuilder :=
  { b with schema := { b.schema with table_name := table_name } }

/-- `SchemaBuilder::with_field` (`schema.rs` lines 239-247). -/
def SchemaBuilder.with_field (b : SchemaBuilder) (name : String)
    (type_ : FieldType) (options : Option FieldOptions) : SchemaBuilder :=
  { b with schema := b.schema.add_field name type_ options }

/-- `SchemaBuilder::build` (`schema.rs` lines 250-252). -/
def SchemaBuilder.build (b : SchemaBuilder) : Schema :=
  b.schema

/-- The schema-mutating operations available to a caller: `Schema::add_field`
directly, or `with_field` / `with_table_name` through a `SchemaBuilder`. -/
inductive SchemaOp where
  | add_field (name : String) (type_ : FieldType) (options : Option FieldOptions)
  | with_field (name : String) (type_ : FieldType) (options : Option FieldOptions)
  | with_table_name (table_name : String)

/-- Application of one `SchemaOp` to a schema, the builder operations going
through `SchemaBuilder` exactly as written in `schema.rs`. -/
def applyOp (s : Schema) : SchemaOp → Schema
  | .add_field name type_ options => s.add_field name type_ options
  | .with_field name type_ options =>
    ((SchemaBuilder.mk s).with_field name type_ options).build
  | .with_table_name table_name =>
    ((SchemaBuilder.mk s).with_table_name table_name).build

/-- The schema reached from `Schema::new` by a sequence of operations. -/
def buildFrom (ops : List SchemaOp) : Schema :=
  ops.foldl applyOp Schema.new

/-- A name that case-insensitively equals one of the three reserved
system-field names. -/
def reservedName (name : String) : Bool :=
  to_lowercase name == "id" || to_lowercase name == "inserted_at"
    || to_lowercase name == "updated_at"

/-- The `users` schema of end-to-end scenario 2 of the spec, the four user
fields added in order by `Schema::add_field`. -/
def usersSchema : Schema :=
  ((((Schema.mk "users" []).add_field "name" FieldType.Char
      (some (FieldOptions.new true true none))).add_field "age" FieldType.Integer
      (some (FieldOptions.new false false (some "5")))).add_field "email"
      FieldType.Char
      (some (FieldOptions.new true true none))).add_field "address"
      FieldType.Char
      (some (FieldOptions.new false false (some "123 Fake Street")))

/-! Helper lemmas shared by several of the claim theorems. -/

/-- Evaluation of the fixed system-field prefix emitted by
`Schema::system_fields_sql`. -/
theorem system_fields_sql_eval :
    Schema.system_fields_sql
      = "id UUID PRIMARY KEY DEFAULT gen_random_uuid(), inserted_at TIMESTAMP without time zone NOT NULL, updated_at TIMESTAMP without time zone NOT NULL, " := by
  decide

/-- Evaluation of `SystemField::names`. -/
theorem system_field_names_eval :
    SystemField.names = ["id", "inserted_at", "updated_at"] := by
  decide

/-- A name whose lowercasing is one of the reserved names matches the
reserved-name scan of `Schema::add_field`. -/
theorem reserved_any_of_reservedName (name : String)
    (h : reservedName name = true) :
    (SystemField.names.any
      fun field => trim (to_lowercase field) == trim (to_lowercase name))
      = true := by
  rw [system_field_names_eval]
  simp only [reservedName, Bool.or_eq_true, beq_iff_eq] at h
  have t1 : trim (to_lowercase "id") = "id" := by decide
  have t2 : trim (to_lowercase "inserted_at") = "inserted_at" := by decide
  have t3 : trim (to_lowercase "updated_at") = "updated_at" := by decide
  have u1 : trim "id" = "id" := by decide
  have u2 : trim "inserted_at" = "inserted_at" := by decide
  have u3 : trim "updated_at" = "updated_at" := by decide
  rcases h with (h | h) | h <;> simp [h, t1, t2, t3, u1, u2, u3]

/-- `Schema::add_field` preserves "no field has a reserved name". -/
theorem add_field_preserves_all_not_reserved (s : Schema) (name : String)
    (type_ : FieldType) (options : Option FieldOptions)
    (h : (s.fields.all fun f => !(reservedName f.name)) = true) :
    ((s.add_field name type_ options).fields.all
      fun f => !(reservedName f.name)) = true := by
  by_cases hc : (SystemField.names.any
      fun field => trim (to_lowercase field) == trim (to_lowercase name))
      = true
  · simp [Schema.add_field, hc, h]
  · have hr : reservedName name = false := by
      cases hg : reservedName name
      · rfl
      · exact absurd (reserved_any_of_reservedName name hg) hc
    simp [Schema.add_field, hc, List.all_append, h, Field.new, hr]

/-- The checked loop of `Schema::to_sql_checked` agrees with the unchecked
loop whenever `1 ≤ n`, i.e. whenever the separator guard's subtraction
`n - 1` cannot underflow. -/
theorem foldl_step_checked (s : Schema) (n : Nat) (hn : 1 ≤ n)
    (l : List (Nat × Field)) :
    ∀ acc : String × List String,
      l.foldl (Schema.to_sql_step_checked s n) (some acc)
        = some (l.foldl (Schema.to_sql_step s n) acc) := by
  induction l with
  | nil => intro acc; rfl
  | cons p l ih =>
    intro acc
    have hcs : checkedSub n 1 = some (n - 1) := by
      simp [checkedSub, hn]
    have hstep : Schema.to_sql_step_checked s n (some acc) p
        = some (Schema.to_sql_step s n acc p) := by
      simp only [Schema.to_sql_step_checked, Schema.to_sql_step, hcs]
    rw [List.foldl_cons, List.foldl_cons, hstep, ih]

/-! The claim theorems. -/

/-- C1: for the `users` schema with fields `name:Char{unique,not_null}`,
`age:Integer{default:"5"}`, `email:Char{unique,not_null}`,
`address:Char{default:"123 Fake Street"}` added in that order, `to_sql`
returns exactly the expected statement: system fields first in fixed order,
user fields in insertion order, then one UNIQUE constraint per unique field
in the same relative order. -/
theorem users_schema_to_sql :
    usersSchema.to_sql
      = "CREATE TABLE users (id UUID PRIMARY KEY DEFAULT gen_random_uuid(), inserted_at TIMESTAMP without time zone NOT NULL, updated_at TIMESTAMP without time zone NOT NULL, name VARCHAR(255) NOT NULL, age BIGINT DEFAULT 5, email VARCHAR(255) NOT NULL, address VARCHAR(255) DEFAULT \x27123 Fake Street\x27, CONSTRAINT users_name_key UNIQUE (name), CONSTRAINT users_email_key UNIQUE (email));" := by
  decide

/-- C2: for every schema whose user-field list is empty, `to_sql` renders
the three system-field fragments each followed by ", " and then immediately
the closing ");", leaving a dangling ", " — the result ends in ", );". -/
theorem to_sql_empty_fields_dangling_separator (s : Schema)
    (h : s.fields = []) :
    s.to_sql = "CREATE TABLE " ++ s.table_name
      ++ " (id UUID PRIMARY KEY DEFAULT gen_random_uuid(), inserted_at TIMESTAMP without time zone NOT NULL, updated_at TIMESTAMP without time zone NOT NULL, );" := by
  obtain ⟨tn, fs⟩ := s
  have h2 : fs = [] := h
  subst h2
  have e : Schema.to_sql (Schema.mk tn [])
      = "CREATE TABLE " ++ tn ++ " (" ++ Schema.system_fields_sql ++ ");" :=
    rfl
  rw [e, system_fields_sql_eval]
  simp only [String.append_assoc]
  congr 2

/-- C2 witness: the empty schema `Schema::new` exhibits the dangling
separator. -/
theorem to_sql_empty_fields_dangling_separator_witness :
    Schema.new.fields = [] ∧ Schema.new.to_sql
      = "CREATE TABLE " ++ Schema.new.table_name
      ++ " (id UUID PRIMARY KEY DEFAULT gen_random_uuid(), inserted_at TIMESTAMP without time zone NOT NULL, updated_at TIMESTAMP without time zone NOT NULL, );" :=
  ⟨rfl, to_sql_empty_fields_dangling_separator Schema.new rfl⟩

/-- C3: `add_field` with a name that, lowercased and trimmed, equals one of
the reserved system-field names is a silent no-op: the schema (table name
and fields) is returned unchanged and no error is raised. -/
theorem add_field_reserved_name_noop (s : Schema) (name : String)
    (type_ : FieldType) (options : Option FieldOptions)
    (h : trim (to_lowercase name) = "id"
      ∨ trim (to_lowercase name) = "inserted_at"
      ∨ trim (to_lowercase name) = "updated_at") :
    s.add_field name type_ options = s := by
  have hc : (SystemField.names.any
      fun field => trim (to_lowercase field) == trim (to_lowercase name))
      = true := by
    rw [system_field_names_eval]
    have t1 : trim (to_lowercase "id") = "id" := by decide
    have t2 : trim (to_lowercase "inserted_at") = "inserted_at" := by decide
    have t3 : trim (to_lowercase "updated_at") = "updated_at" := by decide
    rcases h with h | h | h <;> simp [h, t1, t2, t3]
  simp [Schema.add_field, hc]

/-- C3 witness: adding `" ID "` (a case/whitespace variant of `id`) to the
empty schema leaves it unchanged. -/
theorem add_field_reserved_name_noop_witness :
    (trim (to_lowercase " ID ") = "id"
      ∨ trim (to_lowercase " ID ") = "inserted_at"
      ∨ trim (to_lowercase " ID ") = "updated_at")
    ∧ Schema.new.add_field " ID " FieldType.Char none = Schema.new :=
  ⟨Or.inl (by decide),
    add_field_reserved_name_noop Schema.new " ID " FieldType.Char none
      (Or.inl (by decide))⟩

/-- C4: every schema reachable from `Schema::new` by any sequence of
`add_field` / `with_field` / `with_table_name` operations has no field whose
name case-insensitively equals "id", "inserted_at", or "updated_at". -/
theorem buildFrom_fields_never_reserved (ops : List SchemaOp) :
    ((buildFrom ops).fields.all fun f => !(reservedName f.name)) = true := by
  suffices h : ∀ s : Schema,
      (s.fields.all fun f => !(reservedName f.name)) = true →
      ((ops.foldl applyOp s).fields.all fun f => !(reservedName f.name))
        = true by
    exact h Schema.new rfl
  induction ops with
  | nil => exact fun s hs => hs
  | cons op ops ih =>
    intro s hs
    rw [List.foldl_cons]
    refine ih _ ?_
    cases op with
    | add_field name type_ options =>
      exact add_field_preserves_all_not_reserved s name type_ options hs
    | with_field name type_ options =>
      exact add_field_preserves_all_not_reserved s name type_ options hs
    | with_table_name tn => exact hs

/-- C5: a present default literal renders unquoted for Integer, Serial,
Double and Boolean fields and single-quoted verbatim (no escaping) for every
other type, appended after the NOT NULL clause; an absent default renders
no DEFAULT clause at all. -/
theorem default_sql_quoting (f : Field) (opts : FieldOptions)
    (h : f.options = some opts) :
    (∀ d : String, opts.default = some d →
      f.default_sql
        = (if f.type_ = FieldType.Integer ∨ f.type_ = FieldType.Serial
              ∨ f.type_ = FieldType.Double ∨ f.type_ = FieldType.Boolean
           then " DEFAULT " ++ d
           else " DEFAULT \x27" ++ d ++ "\x27")
      ∧ f.to_sql = f.name ++ " " ++ f.type_.to_string ++ f.not_null_sql
          ++ f.default_sql)
    ∧ (opts.default = none → f.default_sql = "") := by
  rcases f with ⟨nm, ty, fo⟩
  rcases opts with ⟨u, nn, dflt⟩
  have hfo : fo = some (FieldOptions.mk u nn dflt) := h
  subst hfo
  constructor
  · intro d hd
    have hdflt : dflt = some d := hd
    subst hdflt
    refine ⟨?_, rfl⟩
    cases ty <;> rfl
  · intro hd
    have hdflt : dflt = none := hd
    subst hdflt
    rfl

/-- C5 witness: an Integer field with default "5" has options present and
renders its default unquoted. -/
theorem default_sql_quoting_witness :
    (Field.new "age" FieldType.Integer
        (some (FieldOptions.new false false (some "5")))).options
      = some (FieldOptions.new false false (some "5"))
    ∧ (Field.new "age" FieldType.Integer
        (some (FieldOptions.new false false (some "5")))).default_sql
      = " DEFAULT 5" := by
  refine ⟨rfl, ?_⟩
  have h := (default_sql_quoting
    (Field.new "age" FieldType.Integer
      (some (FieldOptions.new false false (some "5"))))
    (FieldOptions.new false false (some "5")) rfl).1 "5" rfl
  rw [h.1]
  decide

/-- C6: the `FieldType` rendering is a total function mapping each of the
11 variants to exactly its SQL keyword. -/
theorem field_type_to_string_spec :
    FieldType.to_string FieldType.Integer = "BIGINT"
    ∧ FieldType.to_string FieldType.Double = "DOUBLE PRECISION"
    ∧ FieldType.to_string FieldType.Serial = "BIGSERIAL"
    ∧ FieldType.to_string FieldType.Char = "VARCHAR(255)"
    ∧ FieldType.to_string FieldType.Text = "TEXT"
    ∧ FieldType.to_string FieldType.Timestamp = "TIMESTAMP WITHOUT TIME ZONE"
    ∧ FieldType.to_string FieldType.Date = "DATE"
    ∧ FieldType.to_string FieldType.Time = "TIME"
    ∧ FieldType.to_string FieldType.Boolean = "BOOLEAN"
    ∧ FieldType.to_string FieldType.Json = "JSON"
    ∧ FieldType.to_string FieldType.UUID = "UUID" := by
  decide

/-- C7: each system field's name and SQL fragment are exactly the fixed
values, and `iterator` / `names` yield the fixed three-element ordered
sequences. -/
theorem system_field_spec :
    SystemField.to_string SystemField.Id = "id"
    ∧ SystemField.to_string SystemField.InsertedAt = "inserted_at"
    ∧ SystemField.to_string SystemField.UpdatedAt = "updated_at"
    ∧ SystemField.to_sql SystemField.Id
      = "id UUID PRIMARY KEY DEFAULT gen_random_uuid()"
    ∧ SystemField.to_sql SystemField.InsertedAt
      = "inserted_at TIMESTAMP without time zone NOT NULL"
    ∧ SystemField.to_sql SystemField.UpdatedAt
      = "updated_at TIMESTAMP without time zone NOT NULL"
    ∧ SystemField.iterator
      = [SystemField.Id, SystemField.InsertedAt, SystemField.UpdatedAt]
    ∧ SystemField.names = ["id", "inserted_at", "updated_at"] := by
  decide

/-- C8: `Field::new` with absent options equals `Field::new` with the
default options; the default options are {unique:false, not_null:false,
default:None}; and every field built by `Field::new` has options present. -/
theorem field_new_options_normalization :
    (∀ (name : String) (type_ : FieldType),
      Field.new name type_ none
        = Field.new name type_ (some FieldOptions.default_options))
    ∧ FieldOptions.default_options
      = { unique := false, not_null := false, default := none }
    ∧ ∀ (name : String) (type_ : FieldType) (options : Option FieldOptions),
        (Field.new name type_ options).options.isSome = true := by
  refine ⟨fun name type_ => rfl, rfl, fun name type_ options => ?_⟩
  cases options <;> rfl

/-- C9: the builder facade adds no semantics: `SchemaBuilder::new().build()`
is `Schema::new()` (empty table name, zero fields), `with_table_name` is
exactly setting the table name, and `with_field` is exactly
`Schema::add_field` on the underlying schema. -/
theorem schema_builder_facade :
    SchemaBuilder.new.build = Schema.new
    ∧ SchemaBuilder.new.build.table_name = ""
    ∧ SchemaBuilder.new.build.fields = []
    ∧ (∀ (s : Schema) (table_name : String),
        ((SchemaBuilder.mk s).with_table_name table_name).build
          = { s with table_name := table_name })
    ∧ ∀ (s : Schema) (name : String) (type_ : FieldType)
        (options : Option FieldOptions),
        ((SchemaBuilder.mk s).with_field name type_ options).build
          = s.add_field name type_ options :=
  ⟨rfl, rfl, rfl, fun _ _ => rfl, fun _ _ _ _ => rfl⟩

/-- C10: `to_sql` is total and deterministic on every schema, and the
checked variant — which aborts exactly where a Rust debug build would panic
on the `len() - 1` underflow of the separator guard — always succeeds with
the same string: the guard is only evaluated inside the loop body, where the
field list is necessarily nonempty. -/
theorem to_sql_checked_eq_to_sql (s : Schema) :
    s.to_sql_checked = some s.to_sql := by
  rcases s with ⟨tn, fs⟩
  cases fs with
  | nil => rfl
  | cons f fs =>
    simp only [Schema.to_sql_checked, Schema.to_sql]
    rw [foldl_step_checked _ _ (by simp)]

end Baas
